import Mathlib

/-!
Shallow embedding of the saddle-point solver-configuration core of
code_saturne (files `src/alge/cs_param_saddle.c` and
`src/cdo/cs_cdofb_monolithic_sles.c`).

Machine floating-point values (`cs_real_t`, `double`) are modelled by exact
rationals `ℚ`; C `int` counters by `ℤ` or `ℕ`; C strings by `String`;
nullable pointers by `Option`.  A C function whose execution can dereference
a null pointer (a crash, not an error code) is modelled as returning
`Option _`, with `none` for the crash.
-/

namespace CsSaddle

/-- `cs_param_solver_class_t`: class (family) of solvers
(`CS_PARAM_SOLVER_CLASS_*`, with `n_classes` standing for the
`CS_PARAM_N_SOLVER_CLASSES` sentinel). -/
inductive SolverClass where
  | cs
  | hypre
  | mumps
  | petsc
  | n_classes
  deriving DecidableEq, Repr

/-- `cs_param_saddle_solver_t`: the outer saddle-point solver kind. -/
inductive SaddleSolver where
  | none
  | alu
  | fgmres
  | gcr
  | gkb
  | minres
  | mumps
  | notay_transform
  | uzawa_cg
  deriving DecidableEq, Repr

/-- `cs_param_saddle_precond_t`: block preconditioner kind. -/
inductive SaddlePrecond where
  | none
  | diag
  | lower
  | sgs
  | upper
  | uzawa
  deriving DecidableEq, Repr

/-- `cs_param_saddle_schur_approx_t`: Schur-complement approximation kind. -/
inductive SchurApprox where
  | none
  | diag_inverse
  | identity
  | lumped_inverse
  | mass_scaled
  | mass_scaled_diag_inverse
  | mass_scaled_lumped_inverse
  deriving DecidableEq, Repr

/-- `cs_param_solver_t` (restricted to the members this subsystem touches):
iterative-method family of a nested SLES. -/
inductive SlesSolver where
  | cg
  | fcg
  | gcr
  | gmres
  | other
  deriving DecidableEq, Repr

/-- `cs_param_precond_type_t` (restricted): preconditioner of a nested SLES. -/
inductive SlesPrecond where
  | none
  | amg
  | diag
  | other
  deriving DecidableEq, Repr

/-- `cs_param_amg_type_t` (restricted): AMG family of a nested SLES
(`inhouse_k` models `CS_PARAM_AMG_INHOUSE_K`). -/
inductive AmgType where
  | none
  | inhouse_k
  | other
  deriving DecidableEq, Repr

/-- `cs_param_convergence_t`: convergence parameters shared by the saddle
solver and the nested SLES records. -/
structure ConvParam where
  n_max_iter : ℕ
  atol : ℚ
  rtol : ℚ
  dtol : ℚ
  deriving DecidableEq, Repr

/-- `cs_param_sles_t` (the members read or written by this subsystem):
parameters of a single sparse-linear-solver instance. -/
structure ParamSLES where
  name : String
  solver : SlesSolver
  precond : SlesPrecond
  amg_type : AmgType
  cvg_param : ConvParam
  deriving DecidableEq, Repr

/-- Modelled from the spec: `cs_param_sles_create` (its source file is not
part of the repository slice); it creates a fresh ParamSLES record carrying
the given name and default solver parameters.  The claims under study never
read an untouched default field, so the particular default values are
irrelevant to every theorem below. -/
def cs_param_sles_create (name : String) : ParamSLES :=
  { name := name
    solver := SlesSolver.cg
    precond := SlesPrecond.none
    amg_type := AmgType.none
    cvg_param := { n_max_iter := 10000, atol := 1/10^24, rtol := 1/10^6,
                   dtol := 10^4 } }

/-- Modelled from the spec: `cs_param_sles_copy_from` (its source file is not
part of the repository slice); it deep-copies every solver-parameter field
from `src` onto `dst`, while `dst` keeps its own identity (its name). -/
def cs_param_sles_copy_from (src dst : ParamSLES) : ParamSLES :=
  { src with name := dst.name }

/-- The tagged-union `context` member of `cs_param_saddle_t`: an untyped
pointer in C, interpreted according to `solver`; `empty` models the null
pointer. -/
inductive SaddleContext where
  | empty
  | alu (augmentation_scaling : ℚ) (dedicated_xtra_sles : Bool)
  | block_krylov (n_stored_directions : ℤ)
  | gkb (augmentation_scaling : ℚ) (truncation_threshold : ℤ)
        (dedicated_xtra_sles : Bool)
  | notay (scaling_coef : ℚ)
  deriving DecidableEq, Repr

/-- `cs_param_saddle_t`: the saddle-point parameter record.
`block11_sles_param` is a non-owning, nullable reference;
`schur_sles_param` and `xtra_sles_param` are owned and nullable. -/
structure ParamSaddle where
  verbosity : ℤ
  name : Option String
  solver_class : SolverClass
  solver : SaddleSolver
  precond : SaddlePrecond
  schur_approx : SchurApprox
  cvg_param : ConvParam
  block11_sles_param : Option ParamSLES
  schur_sles_param : Option ParamSLES
  xtra_sles_param : Option ParamSLES
  context : SaddleContext
  deriving DecidableEq, Repr

/-- Process-global SLES state visible to this subsystem: the epsilon-zero
threshold set by `cs_sles_set_epzero`. -/
structure SlesGlobal where
  epzero : ℚ
  deriving DecidableEq, Repr

/-- Results of the external availability query `cs_param_sles_check_class`
at the two argument values used in this file (`CS_PARAM_SOLVER_CLASS_PETSC`
and `CS_PARAM_SOLVER_CLASS_MUMPS`).  The query is a pure read of the build
configuration, so it is modelled as an input. -/
structure SlesExternals where
  check_petsc : SolverClass
  check_mumps : SolverClass
  deriving DecidableEq, Repr

/-- `cs_param_saddle_create`: default-constructed record. -/
def cs_param_saddle_create : ParamSaddle :=
  { verbosity := 0
    name := none
    solver_class := SolverClass.cs
    solver := SaddleSolver.none
    precond := SaddlePrecond.none
    schur_approx := SchurApprox.none
    cvg_param := { n_max_iter := 100, atol := 1/10^12, rtol := 1/10^6,
                   dtol := 10^3 }
    block11_sles_param := none
    schur_sles_param := none
    xtra_sles_param := none
    context := SaddleContext.empty }

/-- `cs_param_saddle_get_name`: the saddle name, else the (1,1)-block SLES
name, else "Undefined". -/
def cs_param_saddle_get_name (saddlep : ParamSaddle) : String :=
  match saddlep.name with
  | some n => n
  | none =>
    match saddlep.block11_sles_param with
    | some b11 => b11.name
    | none => "Undefined"

/-- `cs_param_saddle_set_name`. -/
def cs_param_saddle_set_name (name : String) (saddlep : ParamSaddle) :
    ParamSaddle :=
  { saddlep with name := some name }

/-- `_init_schur_slesp`: free any previous Schur SLES record and install a
fresh one (AMG-preconditioned flexible CG, in-house K-cycle AMG,
rtol = 1e-4). -/
def _init_schur_slesp (saddlep : ParamSaddle) : ParamSaddle :=
  let basename := cs_param_saddle_get_name saddlep
  let schurp := cs_param_sles_create (basename ++ "_schur_approx")
  let schurp := { schurp with
                  precond := SlesPrecond.amg
                  solver := SlesSolver.fcg
                  amg_type := AmgType.inhouse_k
                  cvg_param := { schurp.cvg_param with rtol := 1/10^4 } }
  { saddlep with schur_sles_param := some schurp }

/-- `_init_xtra_slesp`: seed an extra SLES record from the (1,1)-block one
and coarsen its tolerances (rtol = 1e-3, n_max_iter = 50).  Dereferences the
(1,1)-block reference, hence `none` (crash) when it is null. -/
def _init_xtra_slesp (saddlep : ParamSaddle) : Option ParamSaddle :=
  match saddlep.block11_sles_param with
  | none => none
  | some b11 =>
    let basename := cs_param_saddle_get_name saddlep
    let xtra := cs_param_sles_copy_from b11
                  (cs_param_sles_create (basename ++ "_b11_xtra"))
    let cvg := { xtra.cvg_param with rtol := (1:ℚ)/10^3, n_max_iter := 50 }
    some { saddlep with xtra_sles_param := some { xtra with cvg_param := cvg } }

/-- `_init_xtra_transfo_slesp`: seed an extra SLES record from the
(1,1)-block one for the transformation of the system, with a tightened
relative tolerance floored at 1e-14.  Dereferences the (1,1)-block
reference, hence `none` (crash) when it is null. -/
def _init_xtra_transfo_slesp (saddlep : ParamSaddle) : Option ParamSaddle :=
  match saddlep.block11_sles_param with
  | none => none
  | some b11 =>
    let xtra := cs_param_sles_copy_from b11
                  (cs_param_sles_create (b11.name ++ ":Transfo"))
    let min_tol_threshold : ℚ := 1/10^14
    let tol := min ((1/10) * b11.cvg_param.rtol)
                   ((1/10) * saddlep.cvg_param.rtol)
    let tol := min tol (10 * saddlep.cvg_param.atol)
    let tol := max tol min_tol_threshold
    let cvg := { xtra.cvg_param with
                 rtol := tol
                 atol := min saddlep.cvg_param.atol b11.cvg_param.atol }
    some { saddlep with xtra_sles_param := some { xtra with cvg_param := cvg } }

/-- `cs_param_saddle_set_precond`: string-keyed setter for the saddle
preconditioner; returns the error code and the updated record. -/
def cs_param_saddle_set_precond (keyval : String) (saddlep : ParamSaddle) :
    ℕ × ParamSaddle :=
  if keyval = "none" then (0, { saddlep with precond := SaddlePrecond.none })
  else if keyval = "diag" then
    (0, { saddlep with precond := SaddlePrecond.diag })
  else if keyval = "lower" then
    (0, { saddlep with precond := SaddlePrecond.lower })
  else if keyval = "sgs" then
    (0, { saddlep with precond := SaddlePrecond.sgs })
  else if keyval = "upper" then
    (0, { saddlep with precond := SaddlePrecond.upper })
  else if keyval = "uzawa" then
    let saddlep := { saddlep with precond := SaddlePrecond.uzawa }
    if saddlep.schur_approx = SchurApprox.none then
      (0, { saddlep with schur_approx := SchurApprox.mass_scaled })
    else (0, saddlep)
  else (1, saddlep)

/-- `cs_param_saddle_set_schur_approx`: string-keyed setter for the Schur
approximation; `none` models the crash of `_init_xtra_slesp` on a null
(1,1)-block reference. -/
def cs_param_saddle_set_schur_approx (keyval : String)
    (saddlep : ParamSaddle) : Option (ℕ × ParamSaddle) :=
  if keyval = "none" then
    some (0, { saddlep with schur_approx := SchurApprox.none })
  else if keyval = "diag_inv" then
    some (0, _init_schur_slesp
               { saddlep with schur_approx := SchurApprox.diag_inverse })
  else if keyval = "identity" then
    some (0, { saddlep with schur_approx := SchurApprox.identity })
  else if keyval = "lumped_inv" then
    let saddlep := _init_schur_slesp
      { saddlep with schur_approx := SchurApprox.lumped_inverse }
    (_init_xtra_slesp saddlep).map fun saddlep => (0, saddlep)
  else if keyval = "mass" ∨ keyval = "mass_scaled" then
    some (0, { saddlep with schur_approx := SchurApprox.mass_scaled })
  else if keyval = "mass_scaled_diag_inv" then
    some (0, _init_schur_slesp
               { saddlep with
                   schur_approx := SchurApprox.mass_scaled_diag_inverse })
  else if keyval = "mass_scaled_lumped_inv" then
    let saddlep := _init_schur_slesp
      { saddlep with schur_approx := SchurApprox.mass_scaled_lumped_inverse }
    (_init_xtra_slesp saddlep).map fun saddlep => (0, saddlep)
  else some (1, saddlep)

/-- `cs_param_saddle_set_solver_class`: string-keyed setter for the solver
class.  Note that on an unavailable backend the error is returned *after*
`solver_class` has been assigned. -/
def cs_param_saddle_set_solver_class (ext : SlesExternals) (keyval : String)
    (saddlep : ParamSaddle) : ℕ × ParamSaddle :=
  if keyval = "cs" ∨ keyval = "saturne" then
    (0, { saddlep with solver_class := SolverClass.cs })
  else if keyval = "petsc" then
    let saddlep := { saddlep with solver_class := SolverClass.petsc }
    if ext.check_petsc ≠ SolverClass.petsc then (2, saddlep)
    else (0, saddlep)
  else if keyval = "mumps" then
    let saddlep := { saddlep with solver_class := SolverClass.mumps }
    if ext.check_mumps = SolverClass.n_classes then (3, saddlep)
    else (0, saddlep)
  else (1, saddlep)

/-- `cs_param_saddle_set_solver`: string-keyed setter for the saddle solver.
Returns the error code, the updated record and the updated process-global
SLES state; `none` models the crash of `_init_xtra_transfo_slesp` on a null
(1,1)-block reference.  Backend-unavailability errors are returned after
`solver` and `solver_class` have been assigned. -/
def cs_param_saddle_set_solver (ext : SlesExternals) (keyval : String)
    (saddlep : ParamSaddle) (glob : SlesGlobal) :
    Option (ℕ × ParamSaddle × SlesGlobal) :=
  if keyval = "none" then
    some (0, { saddlep with solver := SaddleSolver.none }, glob)
  else if keyval = "alu" then
    let saddlep := { saddlep with
      solver := SaddleSolver.alu
      solver_class := SolverClass.cs
      precond := SaddlePrecond.none
      schur_approx := SchurApprox.none }
    (_init_xtra_transfo_slesp saddlep).map fun saddlep =>
      (0, { saddlep with context := SaddleContext.alu 100 false }, glob)
  else if keyval = "fgmres" then
    let saddlep := { saddlep with
      solver := SaddleSolver.fgmres
      solver_class := SolverClass.petsc }
    if ext.check_petsc ≠ SolverClass.petsc then some (2, saddlep, glob)
    else
      some (0, { saddlep with context := SaddleContext.block_krylov 30 },
            glob)
  else if keyval = "gcr" then
    let saddlep := { saddlep with
      solver := SaddleSolver.gcr
      solver_class := SolverClass.cs }
    some (0, { saddlep with context := SaddleContext.block_krylov 30 }, glob)
  else if keyval = "gkb" then
    let saddlep := { saddlep with
      solver := SaddleSolver.gkb
      solver_class := SolverClass.cs
      precond := SaddlePrecond.none
      schur_approx := SchurApprox.none }
    (_init_xtra_transfo_slesp saddlep).map fun saddlep =>
      (0, { saddlep with context := SaddleContext.gkb 0 5 false }, glob)
  else if keyval = "minres" then
    some (0, { saddlep with
                 solver := SaddleSolver.minres
                 solver_class := SolverClass.cs }, glob)
  else if keyval = "mumps" then
    let saddlep := { saddlep with
      solver := SaddleSolver.mumps
      solver_class := SolverClass.mumps }
    if ext.check_mumps = SolverClass.n_classes then some (3, saddlep, glob)
    else some (0, saddlep, glob)
  else if keyval = "notay" then
    let saddlep := { saddlep with
      solver := SaddleSolver.notay_transform
      solver_class := SolverClass.cs }
    some (0, { saddlep with context := SaddleContext.notay 1 }, glob)
  else if keyval = "uzawa_cg" then
    some (0, { saddlep with
                 solver := SaddleSolver.uzawa_cg
                 solver_class := SolverClass.cs },
          { glob with epzero := 1/10^15 })
  else some (1, saddlep, glob)

/-- `cs_param_saddle_try_init_schur_sles_param`: initialize the Schur SLES
record only if it is not yet allocated. -/
def cs_param_saddle_try_init_schur_sles_param (saddlep : ParamSaddle) :
    ParamSaddle :=
  match saddlep.schur_sles_param with
  | some _ => saddlep
  | none => _init_schur_slesp saddlep

/-- `cs_param_saddle_try_init_xtra_sles_param`: initialize the extra SLES
record only if it is not yet allocated; `none` models the crash on a null
(1,1)-block reference. -/
def cs_param_saddle_try_init_xtra_sles_param (saddlep : ParamSaddle) :
    Option ParamSaddle :=
  match saddlep.xtra_sles_param with
  | some _ => some saddlep
  | none => _init_xtra_slesp saddlep

/-- First part of `cs_param_saddle_copy`: the plain member-by-member
assignments (solver class, solver, preconditioner, Schur approximation, the
four convergence parameters, the shared (1,1)-block reference). -/
def _copy_scalar_fields (ref dest : ParamSaddle) : ParamSaddle :=
  { dest with
    solver_class := ref.solver_class
    solver := ref.solver
    precond := ref.precond
    schur_approx := ref.schur_approx
    cvg_param := { rtol := ref.cvg_param.rtol
                   atol := ref.cvg_param.atol
                   dtol := ref.cvg_param.dtol
                   n_max_iter := ref.cvg_param.n_max_iter }
    block11_sles_param := ref.block11_sles_param }

/-- Second part of `cs_param_saddle_copy`: when `ref` owns a Schur SLES
record, name the destination if needed, make sure it owns a Schur SLES
record too, and deep-copy the parameters onto it. -/
def _copy_schur_stage (ref dest : ParamSaddle) : ParamSaddle :=
  match ref.schur_sles_param with
  | none => dest
  | some ref_schur =>
    let dest := if dest.name = none
                then cs_param_saddle_set_name "automatic" dest else dest
    let dest := cs_param_saddle_try_init_schur_sles_param dest
    match dest.schur_sles_param with
    | none => dest  -- unreachable: try_init always installs a record
    | some dest_schur =>
      let ds := cs_param_sles_copy_from ref_schur dest_schur
      { dest with schur_sles_param := some ds }

/-- Third part of `cs_param_saddle_copy`: when `ref` owns an extra SLES
record, name the destination if needed, make sure it owns an extra SLES
record too (this can crash on a null (1,1)-block reference, hence
`Option`), and deep-copy the parameters onto it. -/
def _copy_xtra_stage (ref dest : ParamSaddle) : Option ParamSaddle :=
  match ref.xtra_sles_param with
  | none => some dest
  | some ref_xtra =>
    let dest := if dest.name = none
                then cs_param_saddle_set_name "automatic" dest else dest
    match cs_param_saddle_try_init_xtra_sles_param dest with
    | none => none
    | some dest =>
      match dest.xtra_sles_param with
      | none => none  -- unreachable: try_init installed a record
      | some dest_xtra =>
        let dx := cs_param_sles_copy_from ref_xtra dest_xtra
        some { dest with xtra_sles_param := some dx }

/-- `cs_param_saddle_copy`: copy `ref` onto `dest`, in the source order:
scalar members, then the owned Schur SLES record, then the owned extra
SLES record.  `none` models the crash of `_init_xtra_slesp` on a null
(1,1)-block reference. -/
def cs_param_saddle_copy (ref dest : ParamSaddle) : Option ParamSaddle :=
  _copy_xtra_stage ref (_copy_schur_stage ref (_copy_scalar_fields ref dest))

/-!
Embedding of the pieces of `src/cdo/cs_cdofb_monolithic_sles.c` that the
claims mention: the solver-kind guards of the full-system and Notay entry
points, the Schur matrix assembled from a diagonal approximation of
`M11⁻¹`, and the scaled pressure-space mass-matrix diagonal.
-/

/-- The guard condition of `cs_cdofb_monolithic_sles_full_system` deciding
whether the fatal "Full system solver is expected" error is raised,
exactly as written in the source:
`saddlep->solver != MUMPS || saddlep->solver != FGMRES`. -/
def full_system_guard_raises (solver : SaddleSolver) : Bool :=
  (solver != SaddleSolver.mumps) || (solver != SaddleSolver.fgmres)

/-- The guard condition of `cs_cdofb_monolithic_sles_notay` deciding
whether its fatal error is raised, exactly as written in the source:
`saddlep->solver != CS_PARAM_SADDLE_SOLVER_NOTAY_TRANSFORM`. -/
def notay_guard_raises (solver : SaddleSolver) : Bool :=
  solver != SaddleSolver.notay_transform

/-- Mesh and geometric input consumed by
`_schur_matrix_from_m11_inv_approx`: interior/border face counts, the
face→cell adjacencies, and for each face the unit normal (three components)
and the surface measure returned by `cs_quant_set_face_nvec` /
`cs_nvec3(b_face_normal)`. -/
structure SchurMeshData where
  n_i_faces : ℕ
  n_b_faces : ℕ
  n_cells_with_ghosts : ℕ
  i_face_cells : ℕ → ℕ × ℕ
  b_face_cells : ℕ → ℕ
  i_unitv : ℕ → Fin 3 → ℚ
  i_meas : ℕ → ℚ
  b_unitv : ℕ → Fin 3 → ℚ
  b_meas : ℕ → ℚ

/-- Contribution of interior face `f` in
`_schur_matrix_from_m11_inv_approx`:
`contrib = -meas² · Σ_k m11_inv[3f+k] · unitv_k²`. -/
def i_face_contrib (md : SchurMeshData) (m11_inv_approx : ℕ → ℚ) (f : ℕ) :
    ℚ :=
  -(md.i_meas f * md.i_meas f) *
    (Finset.univ.sum fun k : Fin 3 =>
      m11_inv_approx (3 * f + k.val) * (md.i_unitv f k * md.i_unitv f k))

/-- Contribution of border face `f` in
`_schur_matrix_from_m11_inv_approx`:
`contrib = +meas² · Σ_k m11_inv[3·n_i_faces + 3f + k] · unitv_k²`. -/
def b_face_contrib (md : SchurMeshData) (m11_inv_approx : ℕ → ℚ) (f : ℕ) :
    ℚ :=
  (md.b_meas f * md.b_meas f) *
    (Finset.univ.sum fun k : Fin 3 =>
      m11_inv_approx (3 * md.n_i_faces + 3 * f + k.val) *
        (md.b_unitv f k * md.b_unitv f k))

/-- One iteration of the interior-face loop of
`_schur_matrix_from_m11_inv_approx`: write the two extra-diagonal slots of
face `f` and subtract the contribution from the diagonal entries of the two
adjacent cells (state = (diag_smat, xtra_smat)). -/
def schur_interior_step (md : SchurMeshData) (m11_inv_approx : ℕ → ℚ)
    (st : (ℕ → ℚ) × (ℕ → ℚ)) (f : ℕ) : (ℕ → ℚ) × (ℕ → ℚ) :=
  let contrib := i_face_contrib md m11_inv_approx f
  let xtra := Function.update st.2 (2 * f) contrib
  let xtra := Function.update xtra (2 * f + 1) contrib
  let cell_i := (md.i_face_cells f).1
  let cell_j := (md.i_face_cells f).2
  let diag := Function.update st.1 cell_i (st.1 cell_i - contrib)
  let diag := Function.update diag cell_j (diag cell_j - contrib)
  (diag, xtra)

/-- One iteration of the border-face loop of
`_schur_matrix_from_m11_inv_approx`: add the contribution to the diagonal
entry of the single adjacent cell. -/
def schur_border_step (md : SchurMeshData) (m11_inv_approx : ℕ → ℚ)
    (diag : ℕ → ℚ) (f : ℕ) : ℕ → ℚ :=
  let contrib := b_face_contrib md m11_inv_approx f
  Function.update diag (md.b_face_cells f)
    (diag (md.b_face_cells f) + contrib)

/-- `_schur_matrix_from_m11_inv_approx` (coefficient computation): starting
from zero-filled `diag_smat` (size `n_cells_with_ghosts`) and `xtra_smat`
(size `2·n_i_faces`), accumulate the interior-face and border-face
contributions.  Returns `(diag_smat, xtra_smat)`. -/
def _schur_matrix_from_m11_inv_approx (md : SchurMeshData)
    (m11_inv_approx : ℕ → ℚ) : (ℕ → ℚ) × (ℕ → ℚ) :=
  let st0 : (ℕ → ℚ) × (ℕ → ℚ) := (fun _ => 0, fun _ => 0)
  let st := (List.range md.n_i_faces).foldl
              (schur_interior_step md m11_inv_approx) st0
  ((List.range md.n_b_faces).foldl (schur_border_step md m11_inv_approx)
     st.1,
   st.2)

/-- Input consumed by `_get_m22_scaled_diag_mass_matrix`: the turbulence
switch, reference laminar viscosity, evaluated total viscosity per cell,
reference mass density, the steady-model flag, the current time-step size
and the cell volumes. -/
structure M22Input where
  iturb_is_none : Bool
  lam_viscosity_ref : ℚ
  tot_viscosity_at_cells : ℕ → ℚ
  mass_density_ref : ℚ
  model_steady : Bool
  dt0 : ℚ
  cell_vol : ℕ → ℚ

/-- `_get_m22_scaled_diag_mass_matrix`: builds the scaled pressure-space
mass-matrix diagonal (`μ_i / V_i` per cell) and the Schur scaling
`ρ₀ · α` with `α = 1/Δt`, overridden to `0.01·μ_ref` for a steady model.
Returns `(m22_mass_diag, schur_scaling)`. -/
def _get_m22_scaled_diag_mass_matrix (inp : M22Input) : (ℕ → ℚ) × ℚ :=
  let m22_mass_diag : ℕ → ℚ :=
    if inp.iturb_is_none then
      fun i => inp.lam_viscosity_ref / inp.cell_vol i
    else
      fun i => inp.tot_viscosity_at_cells i / inp.cell_vol i
  let alpha : ℚ :=
    if inp.model_steady then (1/100) * inp.lam_viscosity_ref
    else 1 / inp.dt0
  (m22_mass_diag, inp.mass_density_ref * alpha)

/-- Context variant expected after a successful `set_solver(k')`, as the
code actually behaves: a fresh variant for the five context-allocating
keys, the previous (possibly stale) context for the four others. -/
def expected_context (keyval : String) (old : SaddleContext) :
    SaddleContext :=
  if keyval = "alu" then SaddleContext.alu 100 false
  else if keyval = "fgmres" ∨ keyval = "gcr" then
    SaddleContext.block_krylov 30
  else if keyval = "gkb" then SaddleContext.gkb 0 5 false
  else if keyval = "notay" then SaddleContext.notay 1
  else old

/-! Concrete sample fixtures used by the witness and counterexample
theorems below. -/

/-- Sample (1,1)-block SLES parameters. -/
def b11_sample : ParamSLES :=
  { cs_param_sles_create "B11" with
    cvg_param := { n_max_iter := 200, atol := 1/10^13, rtol := 1/10^5,
                   dtol := 10^3 } }

/-- Sample saddle-point record with a non-null (1,1)-block reference. -/
def p_sample : ParamSaddle :=
  { cs_param_saddle_create with block11_sles_param := some b11_sample }

/-- Sample process-global SLES state. -/
def g_sample : SlesGlobal := { epzero := 1/10^12 }

/-- Externals with both PETSc and MUMPS available. -/
def ext_all_ok : SlesExternals :=
  { check_petsc := SolverClass.petsc, check_mumps := SolverClass.mumps }

/-- Externals with neither PETSc nor MUMPS available. -/
def ext_unavailable : SlesExternals :=
  { check_petsc := SolverClass.n_classes,
    check_mumps := SolverClass.n_classes }

/-- Sample two-cell mesh with one interior and one border face. -/
def md_sample : SchurMeshData :=
  { n_i_faces := 1
    n_b_faces := 1
    n_cells_with_ghosts := 2
    i_face_cells := fun _ => (0, 1)
    b_face_cells := fun _ => 0
    i_unitv := fun _ k => if k = 0 then 1 else 0
    i_meas := fun _ => 2
    b_unitv := fun _ k => if k = 1 then 1 else 0
    b_meas := fun _ => 3 }

/-- Sample diagonal approximation of `M11⁻¹`. -/
def D_sample : ℕ → ℚ := fun i => (i + 1 : ℚ)

/-- Sample input for the scaled pressure mass diagonal (steady model,
turbulence off, uniform viscosity 3 and uniform cell volume 5). -/
def m22_sample : M22Input :=
  { iturb_is_none := true
    lam_viscosity_ref := 3
    tot_viscosity_at_cells := fun _ => 7
    mass_density_ref := 2
    model_steady := true
    dt0 := 1/2
    cell_vol := fun _ => 5 }

/-- Result of `set_schur_approx("lumped_inv")` on the sample record (used
by a witness below; the call succeeds, so the default is never taken). -/
def schur_lumped_sample : ℕ × ParamSaddle :=
  (cs_param_saddle_set_schur_approx "lumped_inv" p_sample).getD (0, p_sample)

/-- Result of `set_solver("alu")` on the sample record (used by a witness
below; the call succeeds, so the default is never taken). -/
def solver_alu_sample : ℕ × ParamSaddle × SlesGlobal :=
  (cs_param_saddle_set_solver ext_all_ok "alu" p_sample g_sample).getD
    (0, p_sample, g_sample)

/-- Result of `set_solver("alu")` followed by `set_solver("minres")` on the
sample record (used by a witness below). -/
def solver_alu_minres_sample : ℕ × ParamSaddle × SlesGlobal :=
  (cs_param_saddle_set_solver ext_all_ok "minres" solver_alu_sample.2.1
     solver_alu_sample.2.2).getD (0, p_sample, g_sample)

/-- The setter-observable scalar fields of a ParamSaddle record that
`cs_param_saddle_copy` is meant to transfer, bundled for the copy lemmas
(verbosity appears here to track that copy does *not* transfer it). -/
def obsA (p : ParamSaddle) :
    SolverClass × SaddleSolver × SaddlePrecond × SchurApprox × ConvParam ×
      Option ParamSLES × ℤ :=
  (p.solver_class, p.solver, p.precond, p.schur_approx, p.cvg_param,
   p.block11_sles_param, p.verbosity)

/-- First result of copying twice, on the sample records (used by a witness
below; the copies succeed, so the default is never taken). -/
def copy_sample_1 : ParamSaddle :=
  (cs_param_saddle_copy schur_lumped_sample.2 cs_param_saddle_create).getD
    cs_param_saddle_create

/-- Second result of copying twice, on the sample records. -/
def copy_sample_2 : ParamSaddle :=
  (cs_param_saddle_copy copy_sample_1 cs_param_saddle_create).getD
    cs_param_saddle_create

/-!
## Theorems
-/

/-- C3: the guard of `cs_cdofb_monolithic_sles_full_system` is the
tautology `solver ≠ MUMPS ∨ solver ≠ FGMRES`, so the fatal error is raised
for *every* solver kind — including MUMPS and FGMRES, contradicting the
claimed "if and only if the solver is neither MUMPS nor FGMRES"; the Notay
guard, in contrast, raises exactly when the solver is not
NOTAY_TRANSFORM. -/
theorem full_system_guard_is_tautology :
    full_system_guard_raises SaddleSolver.mumps = true ∧
    full_system_guard_raises SaddleSolver.fgmres = true ∧
    (∀ s : SaddleSolver, full_system_guard_raises s = true) ∧
    (∀ s : SaddleSolver,
      notay_guard_raises s = true ↔ s ≠ SaddleSolver.notay_transform) := by
  refine ⟨rfl, rfl, ?_, ?_⟩ <;> intro s <;> cases s <;>
    simp [full_system_guard_raises, notay_guard_raises]

/-- C6: the scaled pressure mass diagonal is `μ_i / V_i` with `μ_i` the
reference laminar viscosity when turbulence is off and the evaluated total
viscosity otherwise, and the returned Schur scaling is `ρ₀·α` with
`α = 1/Δt` unsteady and `α = 0.01·μ_ref` steady; in steady mode with
turbulence off and uniform volume `V` the diagonal is `μ_ref/V` and the
scaling `ρ₀·0.01·μ_ref`. -/
theorem m22_scaled_diag_mass_matrix_spec (inp : M22Input) (i : ℕ) (V : ℚ) :
    ((_get_m22_scaled_diag_mass_matrix inp).1 i =
      (if inp.iturb_is_none then inp.lam_viscosity_ref
       else inp.tot_viscosity_at_cells i) / inp.cell_vol i) ∧
    ((_get_m22_scaled_diag_mass_matrix inp).2 =
      inp.mass_density_ref *
        (if inp.model_steady then (1/100) * inp.lam_viscosity_ref
         else 1 / inp.dt0)) ∧
    (inp.iturb_is_none = true → inp.model_steady = true →
     (∀ j, inp.cell_vol j = V) →
     (_get_m22_scaled_diag_mass_matrix inp).1 i =
        inp.lam_viscosity_ref / V ∧
     (_get_m22_scaled_diag_mass_matrix inp).2 =
        inp.mass_density_ref * ((1/100) * inp.lam_viscosity_ref)) := by
  refine ⟨?_, ?_, ?_⟩
  · by_cases ht : inp.iturb_is_none <;>
      simp [_get_m22_scaled_diag_mass_matrix, ht]
  · by_cases hs : inp.model_steady <;>
      simp [_get_m22_scaled_diag_mass_matrix, hs]
  · intro ht hs hV
    constructor <;> simp [_get_m22_scaled_diag_mass_matrix, ht, hs, hV i]

/-- Witness for C6 at the sample input. -/
theorem m22_scaled_diag_mass_matrix_spec_witness :
    (_get_m22_scaled_diag_mass_matrix m22_sample).1 0 = 3 / 5 ∧
    (_get_m22_scaled_diag_mass_matrix m22_sample).2 = 2 * ((1/100) * 3) :=
  (m22_scaled_diag_mass_matrix_spec m22_sample 0 5).2.2 rfl rfl
    (fun _ => rfl)

/-- C1: a successful `set_solver("alu")` or `set_solver("gkb")` on a record
with a non-null (1,1)-block reference forces `precond = NONE` and
`schur_approx = NONE` and installs an extra SLES record whose rtol is
`max(1e-14, min(0.1·b11.rtol, 0.1·saddle.rtol, 10·saddle.atol))` and whose
atol is `min(saddle.atol, b11.atol)`. -/
theorem set_solver_alu_gkb_spec (ext : SlesExternals) (keyval : String)
    (p : ParamSaddle) (g : SlesGlobal) (b11 : ParamSLES)
    (hb : p.block11_sles_param = some b11)
    (hk : keyval = "alu" ∨ keyval = "gkb") :
    ∃ p1, cs_param_saddle_set_solver ext keyval p g = some (0, p1, g) ∧
      p1.precond = SaddlePrecond.none ∧
      p1.schur_approx = SchurApprox.none ∧
      ∃ x, p1.xtra_sles_param = some x ∧
        x.cvg_param.rtol =
          max ((1:ℚ)/10^14)
            (min (min ((1/10) * b11.cvg_param.rtol)
                      ((1/10) * p.cvg_param.rtol))
                 (10 * p.cvg_param.atol)) ∧
        x.cvg_param.atol = min p.cvg_param.atol b11.cvg_param.atol := by
  rcases hk with hk | hk <;> subst hk <;>
    simp [cs_param_saddle_set_solver, _init_xtra_transfo_slesp, hb, max_comm]

/-- Witness for C1 at the sample record (alu key). -/
theorem set_solver_alu_gkb_spec_witness :
    ∃ p1, cs_param_saddle_set_solver ext_all_ok "alu" p_sample g_sample =
        some (0, p1, g_sample) ∧
      p1.precond = SaddlePrecond.none ∧
      p1.schur_approx = SchurApprox.none ∧
      ∃ x, p1.xtra_sles_param = some x ∧
        x.cvg_param.rtol =
          max ((1:ℚ)/10^14)
            (min (min ((1/10) * b11_sample.cvg_param.rtol)
                      ((1/10) * p_sample.cvg_param.rtol))
                 (10 * p_sample.cvg_param.atol)) ∧
        x.cvg_param.atol =
          min p_sample.cvg_param.atol b11_sample.cvg_param.atol :=
  set_solver_alu_gkb_spec ext_all_ok "alu" p_sample g_sample b11_sample rfl
    (Or.inl rfl)

/-- C4: a successful `set_schur_approx` with one of the four keys needing a
Schur solve yields error code 0 and installs a Schur SLES record with
solver FCG, preconditioner AMG and rtol 1e-4; the two lumped-inverse keys
additionally install an extra SLES record with rtol 1e-3 and
n_max_iter 50. -/
theorem set_schur_approx_solve_spec (keyval : String) (p : ParamSaddle)
    (hk : keyval = "diag_inv" ∨ keyval = "lumped_inv" ∨
          keyval = "mass_scaled_diag_inv" ∨
          keyval = "mass_scaled_lumped_inv")
    (e : ℕ) (p1 : ParamSaddle)
    (h : cs_param_saddle_set_schur_approx keyval p = some (e, p1)) :
    e = 0 ∧
    (∃ s, p1.schur_sles_param = some s ∧
       s.solver = SlesSolver.fcg ∧ s.precond = SlesPrecond.amg ∧
       s.cvg_param.rtol = (1:ℚ)/10^4) ∧
    ((keyval = "lumped_inv" ∨ keyval = "mass_scaled_lumped_inv") →
      ∃ x, p1.xtra_sles_param = some x ∧
        x.cvg_param.rtol = (1:ℚ)/10^3 ∧ x.cvg_param.n_max_iter = 50) := by
  rcases hk with hk | hk | hk | hk <;> subst hk <;>
    cases hb : p.block11_sles_param <;>
    simp [cs_param_saddle_set_schur_approx, _init_schur_slesp,
          _init_xtra_slesp, hb, Option.map_eq_some'] at h <;>
    obtain ⟨rfl, rfl⟩ := h <;>
    simp

/-- Witness for C4 at the sample record (lumped_inv key). -/
theorem set_schur_approx_solve_spec_witness :
    schur_lumped_sample.1 = 0 ∧
    (∃ s, schur_lumped_sample.2.schur_sles_param = some s ∧
       s.solver = SlesSolver.fcg ∧ s.precond = SlesPrecond.amg ∧
       s.cvg_param.rtol = (1:ℚ)/10^4) ∧
    (∃ x, schur_lumped_sample.2.xtra_sles_param = some x ∧
       x.cvg_param.rtol = (1:ℚ)/10^3 ∧ x.cvg_param.n_max_iter = 50) := by
  have h := set_schur_approx_solve_spec "lumped_inv" p_sample
    (Or.inr (Or.inl rfl)) schur_lumped_sample.1 schur_lumped_sample.2 rfl
  exact ⟨h.1, h.2.1, h.2.2 (Or.inl rfl)⟩

/-- C10: `set_solver` touches the process-global SLES state only for the
key "uzawa_cg", where it sets the epsilon-zero threshold to 1e-15; every
other key returns the global state unchanged. -/
theorem set_solver_global_effect (ext : SlesExternals) (keyval : String)
    (p : ParamSaddle) (g : SlesGlobal) (e : ℕ) (p1 : ParamSaddle)
    (g1 : SlesGlobal)
    (h : cs_param_saddle_set_solver ext keyval p g = some (e, p1, g1)) :
    g1 = (if keyval = "uzawa_cg" then { epzero := (1:ℚ)/10^15 } else g) := by
  unfold cs_param_saddle_set_solver at h
  split_ifs at h with h1 h2 h3 h4 h5 h6 h7 h8 h9
  all_goals simp_all [Option.map_eq_some']
  all_goals obtain ⟨a, ha, he, hp, hg⟩ := h
  all_goals exact hg.symm

/-- Witness for C10: the "uzawa_cg" key sets epzero to 1e-15, the "gcr"
key leaves the global state untouched. -/
theorem set_solver_global_effect_witness :
    ({ epzero := (1:ℚ)/10^15 } : SlesGlobal) =
      (if ("uzawa_cg" : String) = "uzawa_cg" then
        { epzero := (1:ℚ)/10^15 } else g_sample) ∧
    g_sample =
      (if ("gcr" : String) = "uzawa_cg" then
        ({ epzero := (1:ℚ)/10^15 } : SlesGlobal) else g_sample) := by
  constructor
  · exact set_solver_global_effect ext_all_ok "uzawa_cg" p_sample g_sample 0
      { p_sample with solver := SaddleSolver.uzawa_cg,
                      solver_class := SolverClass.cs }
      { epzero := (1:ℚ)/10^15 } (by rfl)
  · exact set_solver_global_effect ext_all_ok "gcr" p_sample g_sample 0
      { p_sample with solver := SaddleSolver.gcr,
                      solver_class := SolverClass.cs,
                      context := SaddleContext.block_krylov 30 }
      g_sample (by rfl)

/-- C2 (amended): after `set_solver(k); set_solver(k')`, both successful,
the context is the freshly allocated variant matching `k'` for the five
context-allocating keys (alu, fgmres, gcr, gkb, notay) — the old context
being freed and replaced — while for the keys none, minres, mumps and
uzawa_cg the context field keeps whatever (possibly stale) variant the
first call left, and no memory is reclaimed. -/
theorem set_solver_context_amended (ext : SlesExternals) (k k2 : String)
    (p : ParamSaddle) (g : SlesGlobal) (p1 : ParamSaddle) (g1 : SlesGlobal)
    (p2 : ParamSaddle) (g2 : SlesGlobal)
    (_h1 : cs_param_saddle_set_solver ext k p g = some (0, p1, g1))
    (h2 : cs_param_saddle_set_solver ext k2 p1 g1 = some (0, p2, g2)) :
    p2.context = expected_context k2 p1.context := by
  clear _h1
  unfold cs_param_saddle_set_solver at h2
  split_ifs at h2 with e1 e2 e3 e4 e5 e6 e7 e8 e9
  all_goals simp_all [Option.map_eq_some', expected_context]
  all_goals try obtain ⟨a, ha, hp2, hg2⟩ := h2
  all_goals subst_vars
  all_goals simp

/-- Witness for C2 (amended) on the sequence alu; minres. -/
theorem set_solver_context_amended_witness :
    solver_alu_minres_sample.2.1.context =
      expected_context "minres" solver_alu_sample.2.1.context :=
  set_solver_context_amended ext_all_ok "alu" "minres" p_sample g_sample
    solver_alu_sample.2.1 solver_alu_sample.2.2
    solver_alu_minres_sample.2.1 solver_alu_minres_sample.2.2 rfl rfl

/-- Counterexample for C2 as stated: after `set_solver("alu")` then
`set_solver("minres")` (both succeed, code 0) the context still holds the
ALU variant, not the empty variant matching minres; the old ALU context is
still reachable through the record, so it was not reclaimed. -/
theorem set_solver_context_counterexample :
    ((cs_param_saddle_set_solver ext_all_ok "alu" p_sample g_sample).bind
       (fun r => cs_param_saddle_set_solver ext_all_ok "minres"
                   r.2.1 r.2.2)).map (fun r => (r.1, r.2.1.context))
      = some (0, SaddleContext.alu 100 false) ∧
    SaddleContext.alu 100 false ≠ SaddleContext.empty :=
  ⟨rfl, by decide⟩

set_option maxHeartbeats 2000000 in
/-- C7 (amended): a setter failing with code 1 (unknown key) leaves the
record — and for `set_solver` the global state — unchanged; but a setter
failing with a backend-unavailability code (2 or 3) has already assigned
`solver_class` (`set_solver_class`) or both `solver` and `solver_class`
(`set_solver`); every other field and the global state are unchanged. -/
theorem setter_error_frame (ext : SlesExternals) (keyval : String)
    (p : ParamSaddle) (g : SlesGlobal) :
    ((cs_param_saddle_set_precond keyval p).1 > 0 →
       (cs_param_saddle_set_precond keyval p).2 = p) ∧
    (∀ e p1, cs_param_saddle_set_schur_approx keyval p = some (e, p1) →
       0 < e → p1 = p) ∧
    ((cs_param_saddle_set_solver_class ext keyval p).1 = 1 →
       (cs_param_saddle_set_solver_class ext keyval p).2 = p) ∧
    (1 < (cs_param_saddle_set_solver_class ext keyval p).1 →
       ∃ c, (cs_param_saddle_set_solver_class ext keyval p).2 =
          { p with solver_class := c }) ∧
    (∀ e p1 g1,
       cs_param_saddle_set_solver ext keyval p g = some (e, p1, g1) →
       (e = 1 → p1 = p ∧ g1 = g) ∧
       (1 < e → (∃ s c, p1 = { p with solver := s, solver_class := c }) ∧
          g1 = g)) := by
  refine ⟨?_, ?_, ?_, ?_, ?_⟩
  · unfold cs_param_saddle_set_precond
    split_ifs <;> simp [apply_ite]
  · intro e p1 h
    unfold cs_param_saddle_set_schur_approx at h
    split_ifs at h <;> simp_all [Option.map_eq_some']
  · unfold cs_param_saddle_set_solver_class
    split_ifs <;> simp
  · unfold cs_param_saddle_set_solver_class
    split_ifs <;> simp
  · intro e p1 g1 h
    unfold cs_param_saddle_set_solver at h
    split_ifs at h <;>
      simp only [Option.map_eq_some', Option.some.injEq,
                 Prod.mk.injEq] at h
    all_goals try obtain ⟨a, ha, he, hp, hg⟩ := h
    all_goals subst_vars
    all_goals constructor <;>
      (intro hh; first
        | omega
        | exact ⟨rfl, rfl⟩
        | exact ⟨⟨_, _, rfl⟩, rfl⟩)

/-- Witness for C7 (amended) at the unknown key "foo". -/
theorem setter_error_frame_witness :
    (cs_param_saddle_set_precond "foo" p_sample).2 = p_sample ∧
    (cs_param_saddle_set_solver_class ext_all_ok "foo" p_sample).2 =
      p_sample := by
  have h := setter_error_frame ext_all_ok "foo" p_sample g_sample
  exact ⟨h.1 (by decide), h.2.2.1 (by decide)⟩

/-- Counterexample for C7 as stated: with PETSc unavailable,
`set_solver_class("petsc")` returns the positive code 2 yet has changed
`solver_class` from CS to PETSC, so the record is not left unchanged. -/
theorem setter_error_mutates_counterexample :
    (cs_param_saddle_set_solver_class ext_unavailable "petsc"
        cs_param_saddle_create).1 = 2 ∧
    (cs_param_saddle_set_solver_class ext_unavailable "petsc"
        cs_param_saddle_create).2.solver_class = SolverClass.petsc ∧
    cs_param_saddle_create.solver_class = SolverClass.cs ∧
    (cs_param_saddle_set_solver_class ext_unavailable "petsc"
        cs_param_saddle_create).2 ≠ cs_param_saddle_create := by
  refine ⟨rfl, rfl, rfl, fun hcontra => ?_⟩
  have hclass := congrArg ParamSaddle.solver_class hcontra
  simp [cs_param_saddle_set_solver_class, cs_param_saddle_create,
        ext_unavailable] at hclass

/-- C9 (amended): no rejection of a lower/upper block-triangular
preconditioner with MINRES exists: in either call order,
`set_solver("minres")` and `set_precond("lower"/"upper")` both succeed
(code 0) and leave the record with solver MINRES and precond LOWER/UPPER. -/
theorem minres_lower_upper_not_rejected (ext : SlesExternals)
    (p : ParamSaddle) (g : SlesGlobal) (keyp : String)
    (hk : keyp = "lower" ∨ keyp = "upper") :
    ∃ p1, cs_param_saddle_set_solver ext "minres" p g = some (0, p1, g) ∧
      (cs_param_saddle_set_precond keyp p1).1 = 0 ∧
      (cs_param_saddle_set_precond keyp p1).2.precond =
        (if keyp = "lower" then SaddlePrecond.lower
         else SaddlePrecond.upper) ∧
      (cs_param_saddle_set_precond keyp p1).2.solver = SaddleSolver.minres ∧
      (cs_param_saddle_set_precond keyp p).1 = 0 ∧
      ∃ p2, cs_param_saddle_set_solver ext "minres"
              (cs_param_saddle_set_precond keyp p).2 g = some (0, p2, g) ∧
        p2.precond =
          (if keyp = "lower" then SaddlePrecond.lower
           else SaddlePrecond.upper) ∧
        p2.solver = SaddleSolver.minres := by
  rcases hk with hk | hk <;> subst hk <;>
    simp [cs_param_saddle_set_solver, cs_param_saddle_set_precond]

/-- Witness for C9 (amended) at the key "lower" on the sample record. -/
theorem minres_lower_upper_not_rejected_witness :
    ∃ p1, cs_param_saddle_set_solver ext_all_ok "minres" p_sample g_sample
        = some (0, p1, g_sample) ∧
      (cs_param_saddle_set_precond "lower" p1).1 = 0 ∧
      (cs_param_saddle_set_precond "lower" p1).2.precond =
        (if ("lower" : String) = "lower" then SaddlePrecond.lower
         else SaddlePrecond.upper) ∧
      (cs_param_saddle_set_precond "lower" p1).2.solver =
        SaddleSolver.minres ∧
      (cs_param_saddle_set_precond "lower" p_sample).1 = 0 ∧
      ∃ p2, cs_param_saddle_set_solver ext_all_ok "minres"
              (cs_param_saddle_set_precond "lower" p_sample).2 g_sample =
            some (0, p2, g_sample) ∧
        p2.precond =
          (if ("lower" : String) = "lower" then SaddlePrecond.lower
           else SaddlePrecond.upper) ∧
        p2.solver = SaddleSolver.minres :=
  minres_lower_upper_not_rejected ext_all_ok p_sample g_sample "lower"
    (Or.inl rfl)

/-- Counterexample for C9 as stated: `set_solver("minres")` then
`set_precond("lower")` returns the success code 0 and leaves the record
with precond LOWER and solver MINRES — the configuration is not rejected. -/
theorem minres_lower_counterexample :
    ((cs_param_saddle_set_solver ext_all_ok "minres" p_sample
        g_sample).map (fun r => cs_param_saddle_set_precond "lower"
          r.2.1)).map (fun r => (r.1, r.2.precond, r.2.solver))
      = some (0, SaddlePrecond.lower, SaddleSolver.minres) := by rfl

/-- Pointwise form of one interior-face step, extra-diagonal part: the step
at face `q` writes the two slots `2q` and `2q+1` and leaves the others. -/
theorem schur_interior_step_xtra (md : SchurMeshData) (D : ℕ → ℚ)
    (S : (ℕ → ℚ) × (ℕ → ℚ)) (q j : ℕ) :
    (schur_interior_step md D S q).2 j =
      if j = 2*q + 1 then i_face_contrib md D q
      else if j = 2*q then i_face_contrib md D q
      else S.2 j := by
  simp [schur_interior_step, Function.update_apply]

/-- Pointwise form of one interior-face step, diagonal part: the step at
face `q` subtracts the face contribution from each adjacent cell (twice
from the same entry when the two adjacent cells coincide). -/
theorem schur_interior_step_diag (md : SchurMeshData) (D : ℕ → ℚ)
    (S : (ℕ → ℚ) × (ℕ → ℚ)) (q c : ℕ) :
    (schur_interior_step md D S q).1 c =
      S.1 c + ((if c = (md.i_face_cells q).1
                then -(i_face_contrib md D q) else 0)
             + (if c = (md.i_face_cells q).2
                then -(i_face_contrib md D q) else 0)) := by
  unfold schur_interior_step
  simp only [Function.update_apply]
  generalize hq : md.i_face_cells q = cc
  obtain ⟨ci, cj⟩ := cc
  dsimp only
  split_ifs <;> subst_vars <;> first | ring1 | (exfalso; omega)

/-- Pointwise form of one border-face step: the step at face `q` adds the
face contribution to the single adjacent cell. -/
theorem schur_border_step_diag (md : SchurMeshData) (D : ℕ → ℚ)
    (diag : ℕ → ℚ) (q c : ℕ) :
    (schur_border_step md D diag q) c =
      diag c + (if c = md.b_face_cells q
                then b_face_contrib md D q else 0) := by
  by_cases h1 : c = md.b_face_cells q <;>
    simp [schur_border_step, Function.update_apply, h1]

/-- After the interior-face loop, both extra-diagonal slots of every
processed face hold exactly that face's contribution. -/
theorem schur_interior_fold_xtra (md : SchurMeshData) (D : ℕ → ℚ)
    (n : ℕ) (st : (ℕ → ℚ) × (ℕ → ℚ)) (f : ℕ) (hf : f < n) :
    (((List.range n).foldl (schur_interior_step md D) st).2 (2*f) =
       i_face_contrib md D f) ∧
    (((List.range n).foldl (schur_interior_step md D) st).2 (2*f+1) =
       i_face_contrib md D f) := by
  induction n generalizing st with
  | zero => omega
  | succ m ih =>
    rw [List.range_succ, List.foldl_append, List.foldl_cons, List.foldl_nil]
    by_cases hfm : f = m
    · subst hfm
      refine ⟨?_, ?_⟩
      · rw [schur_interior_step_xtra, if_neg (by omega), if_pos rfl]
      · rw [schur_interior_step_xtra, if_pos rfl]
    · have hlt : f < m := by omega
      refine ⟨?_, ?_⟩
      · rw [schur_interior_step_xtra, if_neg (by omega), if_neg (by omega)]
        exact (ih st hlt).1
      · rw [schur_interior_step_xtra, if_neg (by omega), if_neg (by omega)]
        exact (ih st hlt).2

/-- Closed form of the diagonal after the interior-face loop. -/
theorem schur_interior_fold_diag (md : SchurMeshData) (D : ℕ → ℚ)
    (n : ℕ) (st : (ℕ → ℚ) × (ℕ → ℚ)) (c : ℕ) :
    ((List.range n).foldl (schur_interior_step md D) st).1 c =
      st.1 c + ∑ f ∈ Finset.range n,
        ((if c = (md.i_face_cells f).1
          then -(i_face_contrib md D f) else 0)
       + (if c = (md.i_face_cells f).2
          then -(i_face_contrib md D f) else 0)) := by
  induction n generalizing st with
  | zero => simp
  | succ m ih =>
    rw [List.range_succ, List.foldl_append, List.foldl_cons,
        List.foldl_nil, Finset.sum_range_succ, schur_interior_step_diag,
        ih]
    ring

/-- Closed form of the diagonal after the border-face loop. -/
theorem schur_border_fold_diag (md : SchurMeshData) (D : ℕ → ℚ)
    (n : ℕ) (diag : ℕ → ℚ) (c : ℕ) :
    ((List.range n).foldl (schur_border_step md D) diag) c =
      diag c + ∑ f ∈ Finset.range n,
        (if c = md.b_face_cells f then b_face_contrib md D f else 0) := by
  induction n generalizing diag with
  | zero => simp
  | succ m ih =>
    rw [List.range_succ, List.foldl_append, List.foldl_cons,
        List.foldl_nil, Finset.sum_range_succ, schur_border_step_diag, ih]
    ring

/-- C5: in the Schur matrix built from a diagonal approximation `D` of
`M11⁻¹`, every interior face stores `-A²·Σ_k D[3f+k]·n_k²` identically in
both extra-diagonal slots `2f` and `2f+1`, and — starting from the
zero-filled diagonal — each diagonal entry ends up as the sum of the
negated interior-face contributions of its incident interior faces (one
term per adjacency slot) plus the border-face contributions
`+A²·Σ_k D[3·n_i_faces+3f+k]·n_k²` of its incident border faces. -/
theorem schur_matrix_from_m11_inv_approx_spec (md : SchurMeshData)
    (D : ℕ → ℚ) :
    (∀ f, f < md.n_i_faces →
       (_schur_matrix_from_m11_inv_approx md D).2 (2*f) =
         i_face_contrib md D f ∧
       (_schur_matrix_from_m11_inv_approx md D).2 (2*f+1) =
         i_face_contrib md D f) ∧
    (∀ c, (_schur_matrix_from_m11_inv_approx md D).1 c =
       (∑ f ∈ Finset.range md.n_i_faces,
          ((if c = (md.i_face_cells f).1
            then -(i_face_contrib md D f) else 0)
         + (if c = (md.i_face_cells f).2
            then -(i_face_contrib md D f) else 0))) +
       (∑ f ∈ Finset.range md.n_b_faces,
          (if c = md.b_face_cells f then b_face_contrib md D f else 0))) := by
  constructor
  · intro f hf
    have h := schur_interior_fold_xtra md D md.n_i_faces
      (fun _ => (0:ℚ), fun _ => (0:ℚ)) f hf
    exact ⟨h.1, h.2⟩
  · intro c
    show ((List.range md.n_b_faces).foldl (schur_border_step md D)
      ((List.range md.n_i_faces).foldl (schur_interior_step md D)
        (fun _ => (0:ℚ), fun _ => (0:ℚ))).1) c = _
    rw [schur_border_fold_diag, schur_interior_fold_diag]
    simp

/-- Witness for C5 on the sample mesh. -/
theorem schur_matrix_from_m11_inv_approx_spec_witness :
    0 < md_sample.n_i_faces ∧
    (_schur_matrix_from_m11_inv_approx md_sample D_sample).2 0 =
      i_face_contrib md_sample D_sample 0 := by
  refine ⟨by decide, ?_⟩
  simpa using
    ((schur_matrix_from_m11_inv_approx_spec md_sample D_sample).1 0
      (by decide)).1

/-- `cs_param_saddle_set_name` only touches the name field. -/
theorem set_name_obsA (n : String) (p : ParamSaddle) :
    obsA (cs_param_saddle_set_name n p) = obsA p := rfl

/-- `cs_param_saddle_set_name` leaves the Schur SLES record alone. -/
theorem set_name_schur (n : String) (p : ParamSaddle) :
    (cs_param_saddle_set_name n p).schur_sles_param = p.schur_sles_param :=
  rfl

/-- `cs_param_saddle_set_name` leaves the extra SLES record alone. -/
theorem set_name_xtra (n : String) (p : ParamSaddle) :
    (cs_param_saddle_set_name n p).xtra_sles_param = p.xtra_sles_param :=
  rfl

/-- After `try_init_schur_sles_param` the Schur SLES record is owned. -/
theorem try_init_schur_some (p : ParamSaddle) :
    ∃ s, (cs_param_saddle_try_init_schur_sles_param p).schur_sles_param =
      some s := by
  unfold cs_param_saddle_try_init_schur_sles_param
  cases h : p.schur_sles_param <;> simp [h, _init_schur_slesp]

/-- `try_init_schur_sles_param` only touches the Schur SLES record. -/
theorem try_init_schur_obsA (p : ParamSaddle) :
    obsA (cs_param_saddle_try_init_schur_sles_param p) = obsA p := by
  unfold cs_param_saddle_try_init_schur_sles_param
  cases h : p.schur_sles_param <;> simp [h, _init_schur_slesp, obsA]

/-- `try_init_schur_sles_param` leaves the extra SLES record alone. -/
theorem try_init_schur_xtra (p : ParamSaddle) :
    (cs_param_saddle_try_init_schur_sles_param p).xtra_sles_param =
      p.xtra_sles_param := by
  unfold cs_param_saddle_try_init_schur_sles_param
  cases h : p.schur_sles_param <;> simp [h, _init_schur_slesp]

/-- A successful `try_init_xtra_sles_param` only touches the extra SLES
record, which it leaves owned. -/
theorem try_init_xtra_obsA (p q : ParamSaddle)
    (h : cs_param_saddle_try_init_xtra_sles_param p = some q) :
    obsA q = obsA p ∧ q.schur_sles_param = p.schur_sles_param ∧
      ∃ x, q.xtra_sles_param = some x := by
  unfold cs_param_saddle_try_init_xtra_sles_param at h
  cases hx : p.xtra_sles_param with
  | some x =>
    simp only [hx] at h
    obtain rfl := Option.some.inj h
    exact ⟨rfl, rfl, x, hx⟩
  | none =>
    simp only [hx] at h
    unfold _init_xtra_slesp at h
    cases hb : p.block11_sles_param with
    | none =>
      simp only [hb] at h
      exact absurd h (by simp)
    | some b =>
      simp only [hb] at h
      obtain rfl := Option.some.inj h
      exact ⟨by simp [obsA, hb], by simp, _, rfl⟩

/-- Updating the Schur SLES member does not change the observables. -/
theorem obsA_set_schur (z : ParamSaddle) (v : Option ParamSLES) :
    obsA { z with schur_sles_param := v } = obsA z := rfl

/-- Updating the extra SLES member does not change the observables. -/
theorem obsA_set_xtra (z : ParamSaddle) (v : Option ParamSLES) :
    obsA { z with xtra_sles_param := v } = obsA z := rfl

/-- Updating the Schur SLES member leaves the extra SLES member alone. -/
theorem xtra_of_set_schur (z : ParamSaddle) (v : Option ParamSLES) :
    ({ z with schur_sles_param := v } : ParamSaddle).xtra_sles_param =
      z.xtra_sles_param := rfl

/-- Updating the extra SLES member leaves the Schur SLES member alone. -/
theorem schur_of_set_xtra (z : ParamSaddle) (v : Option ParamSLES) :
    ({ z with xtra_sles_param := v } : ParamSaddle).schur_sles_param =
      z.schur_sles_param := rfl

/-- The scalar-copy part of `cs_param_saddle_copy` takes the six copied
members from `ref` and everything else from `dest`. -/
theorem copy_scalar_fields_spec (ref dest : ParamSaddle) :
    (_copy_scalar_fields ref dest).solver_class = ref.solver_class ∧
    (_copy_scalar_fields ref dest).solver = ref.solver ∧
    (_copy_scalar_fields ref dest).precond = ref.precond ∧
    (_copy_scalar_fields ref dest).schur_approx = ref.schur_approx ∧
    (_copy_scalar_fields ref dest).cvg_param = ref.cvg_param ∧
    (_copy_scalar_fields ref dest).block11_sles_param =
      ref.block11_sles_param ∧
    (_copy_scalar_fields ref dest).schur_sles_param =
      dest.schur_sles_param ∧
    (_copy_scalar_fields ref dest).xtra_sles_param = dest.xtra_sles_param ∧
    (_copy_scalar_fields ref dest).verbosity = dest.verbosity := by
  simp [_copy_scalar_fields]

/-- The Schur-copy part of `cs_param_saddle_copy` only touches the name and
the Schur SLES record. -/
theorem copy_schur_stage_obsA (ref dest : ParamSaddle) :
    obsA (_copy_schur_stage ref dest) = obsA dest ∧
    (_copy_schur_stage ref dest).xtra_sles_param = dest.xtra_sles_param := by
  unfold _copy_schur_stage
  cases hr : ref.schur_sles_param with
  | none => exact ⟨rfl, rfl⟩
  | some rs =>
    dsimp only
    split_ifs with hname <;>
    · obtain ⟨s, hs⟩ := try_init_schur_some _
      rw [hs]
      constructor
      · rw [obsA_set_schur, try_init_schur_obsA]
        all_goals rw [set_name_obsA]
      · rw [xtra_of_set_schur, try_init_schur_xtra]
        all_goals rw [set_name_xtra]

/-- When `ref` owns a Schur SLES record, the Schur-copy part installs a
record equal to it in every member except the name. -/
theorem copy_schur_stage_payload (ref dest : ParamSaddle) (rs : ParamSLES)
    (hr : ref.schur_sles_param = some rs) :
    ∃ qs, (_copy_schur_stage ref dest).schur_sles_param = some qs ∧
      qs = { rs with name := qs.name } := by
  unfold _copy_schur_stage
  rw [hr]
  dsimp only
  split_ifs with hname <;>
  · obtain ⟨s, hs⟩ := try_init_schur_some _
    rw [hs]
    exact ⟨cs_param_sles_copy_from rs s, rfl, rfl⟩

/-- A successful extra-copy part of `cs_param_saddle_copy` only touches the
name and the extra SLES record, and when `ref` owns an extra SLES record it
installs a record equal to it in every member except the name. -/
theorem copy_xtra_stage_spec (ref dest q : ParamSaddle)
    (h : _copy_xtra_stage ref dest = some q) :
    obsA q = obsA dest ∧ q.schur_sles_param = dest.schur_sles_param ∧
    (∀ rx, ref.xtra_sles_param = some rx →
       ∃ qx, q.xtra_sles_param = some qx ∧
         qx = { rx with name := qx.name }) := by
  unfold _copy_xtra_stage at h
  cases hr : ref.xtra_sles_param with
  | none =>
    simp only [hr] at h
    obtain rfl := Option.some.inj h
    exact ⟨rfl, rfl, by simp⟩
  | some rx =>
    simp only [hr] at h
    revert h
    split_ifs with hname <;>
    · intro h
      cases hti : cs_param_saddle_try_init_xtra_sles_param _ with
      | none =>
        rw [hti] at h
        exact absurd h (by simp)
      | some d2 =>
        rw [hti] at h
        obtain ⟨oA, oS, x, hx⟩ := try_init_xtra_obsA _ _ hti
        simp only [hx] at h
        obtain rfl := Option.some.inj h
        refine ⟨?_, ?_, ?_⟩
        · rw [obsA_set_xtra, oA]
          all_goals rw [set_name_obsA]
        · rw [schur_of_set_xtra, oS]
          all_goals rw [set_name_schur]
        · intro rx2 hrx2
          obtain rfl := Option.some.inj hrx2
          exact ⟨_, rfl, rfl⟩

/-- A successful `cs_param_saddle_copy` takes the six copied members from
`ref`, keeps the destination verbosity, and deep-copies the owned Schur and
extra SLES records (fresh names, equal parameters). -/
theorem cs_param_saddle_copy_spec (ref dest q : ParamSaddle)
    (h : cs_param_saddle_copy ref dest = some q) :
    q.solver_class = ref.solver_class ∧ q.solver = ref.solver ∧
    q.precond = ref.precond ∧ q.schur_approx = ref.schur_approx ∧
    q.cvg_param = ref.cvg_param ∧
    q.block11_sles_param = ref.block11_sles_param ∧
    q.verbosity = dest.verbosity ∧
    (∀ rs, ref.schur_sles_param = some rs →
       ∃ qs, q.schur_sles_param = some qs ∧
         qs = { rs with name := qs.name }) ∧
    (∀ rx, ref.xtra_sles_param = some rx →
       ∃ qx, q.xtra_sles_param = some qx ∧
         qx = { rx with name := qx.name }) := by
  unfold cs_param_saddle_copy at h
  obtain ⟨oA, oS, hx⟩ := copy_xtra_stage_spec _ _ _ h
  obtain ⟨oA2, ox2⟩ := copy_schur_stage_obsA ref (_copy_scalar_fields ref dest)
  obtain ⟨s1, s2, s3, s4, s5, s6, s7, s8, s9⟩ :=
    copy_scalar_fields_spec ref dest
  have hA : obsA q = obsA (_copy_scalar_fields ref dest) := oA.trans oA2
  have e1 := congrArg (fun t => t.1) hA
  have e2 := congrArg (fun t => t.2.1) hA
  have e3 := congrArg (fun t => t.2.2.1) hA
  have e4 := congrArg (fun t => t.2.2.2.1) hA
  have e5 := congrArg (fun t => t.2.2.2.2.1) hA
  have e6 := congrArg (fun t => t.2.2.2.2.2.1) hA
  have e7 := congrArg (fun t => t.2.2.2.2.2.2) hA
  simp only [obsA] at e1 e2 e3 e4 e5 e6 e7
  refine ⟨e1.trans s1, e2.trans s2, e3.trans s3, e4.trans s4, e5.trans s5,
          e6.trans s6, e7.trans s9, ?_, hx⟩
  intro rs hrs
  obtain ⟨qs, hqs, hqseq⟩ :=
    copy_schur_stage_payload ref (_copy_scalar_fields ref dest) rs hrs
  exact ⟨qs, oS.trans hqs, hqseq⟩

/-- C8 (amended): after `copy(p1, p2); copy(p2, p3)` the record `p3` agrees
with `p1` on solver_class, solver, precond, schur_approx, the four
convergence parameters and the (1,1)-block reference, and — when `p1` owns
them — carries deep copies of the Schur and extra SLES records equal to
`p1`'s in every member except the name; verbosity and the context scalars
are *not* propagated by copy. -/
theorem copy_copy_behavioral (p1 p2 p3 q2 q3 : ParamSaddle)
    (h2 : cs_param_saddle_copy p1 p2 = some q2)
    (h3 : cs_param_saddle_copy q2 p3 = some q3) :
    q3.solver_class = p1.solver_class ∧ q3.solver = p1.solver ∧
    q3.precond = p1.precond ∧ q3.schur_approx = p1.schur_approx ∧
    q3.cvg_param = p1.cvg_param ∧
    q3.block11_sles_param = p1.block11_sles_param ∧
    (∀ s1, p1.schur_sles_param = some s1 →
       ∃ s3, q3.schur_sles_param = some s3 ∧
         s3 = { s1 with name := s3.name }) ∧
    (∀ x1, p1.xtra_sles_param = some x1 →
       ∃ x3, q3.xtra_sles_param = some x3 ∧
         x3 = { x1 with name := x3.name }) := by
  obtain ⟨a2, b2, c2, d2, e2, f2, v2, g2, i2⟩ :=
    cs_param_saddle_copy_spec _ _ _ h2
  obtain ⟨a3, b3, c3, d3, e3, f3, v3, g3, i3⟩ :=
    cs_param_saddle_copy_spec _ _ _ h3
  refine ⟨a3.trans a2, b3.trans b2, c3.trans c2, d3.trans d2, e3.trans e2,
          f3.trans f2, ?_, ?_⟩
  · intro s1 hs1
    obtain ⟨s2v, hs2, hs2eq⟩ := g2 s1 hs1
    obtain ⟨s3v, hs3, hs3eq⟩ := g3 s2v hs2
    refine ⟨s3v, hs3, ?_⟩
    rw [hs2eq] at hs3eq
    exact hs3eq
  · intro x1 hx1
    obtain ⟨x2v, hx2, hx2eq⟩ := i2 x1 hx1
    obtain ⟨x3v, hx3, hx3eq⟩ := i3 x2v hx2
    refine ⟨x3v, hx3, ?_⟩
    rw [hx2eq] at hx3eq
    exact hx3eq

/-- Witness for C8 (amended) on the sample records. -/
theorem copy_copy_behavioral_witness :
    copy_sample_2.solver = schur_lumped_sample.2.solver ∧
    copy_sample_2.cvg_param = schur_lumped_sample.2.cvg_param := by
  have h := copy_copy_behavioral schur_lumped_sample.2
    cs_param_saddle_create cs_param_saddle_create
    copy_sample_1 copy_sample_2 rfl rfl
  exact ⟨h.2.1, h.2.2.2.2.1⟩

/-- Counterexample for C8 as stated: verbosity is setter-observable (it is
a public member of the record) yet `copy(p1,p2); copy(p2,p3)` fails to
transfer it — with `p1.verbosity = 1` and default `p2`, `p3`, the final
record has verbosity 0. -/
theorem copy_copy_counterexample :
    ((cs_param_saddle_copy { cs_param_saddle_create with verbosity := 1 }
        cs_param_saddle_create).bind
      (fun q2 => cs_param_saddle_copy q2 cs_param_saddle_create)).map
        ParamSaddle.verbosity = some 0 ∧
    ({ cs_param_saddle_create with verbosity := 1 } :
        ParamSaddle).verbosity = 1 ∧ (0 : ℤ) ≠ 1 :=
  ⟨rfl, rfl, by decide⟩

end CsSaddle
